import Mathlib

/-!
Verification of `examples/example.py` from the cp2p repository.

The script appends the repository root to `sys.path`, imports four
arithmetic functions (`add`, `multiply`, `square_root`, `is_even`) from an
external `bindings.math` module, and in `main` calls each function once
with fixed literal arguments, printing each result with an f-string.

Shallow embedding:

* `PyVal` models the Python values the script handles (ints, floats whose
  values are exactly representable decimals, booleans); floats are modelled
  as rationals, which is exact for every value this script produces;
* `Bindings` models the four imported functions; a call may raise, which
  is modelled by `Except String PyVal`;
* `runMain` is the translation of `main`: it returns the event trace
  (binding calls and printed lines, in program order) together with the
  exit status (`Except`: an exception propagating uncaught out of `main`);
* `runScript` adds the module-level statements: the `sys.path.append`
  mutation, the import of the bindings module (which can fail), and the
  `main()` call guarded by the `__name__` check.

The `bindings.math` module itself is not part of the repository source;
where a claim depends on what its functions return, they are modelled
from the spec (see `specBindings`).
-/

/-- Python values occurring in the script: integers, floats (modelled as
rationals, exact for the finite-decimal values this script produces), and
booleans. -/
inductive PyVal where
  | int (n : Int)
  | float (q : ℚ)
  | bool (b : Bool)
deriving DecidableEq

/-- Decimal digits produced by long division of `rem / d` (with
`0 < rem < d`), as Python prints the fractional part of an exactly
representable float; `fuel` bounds the number of digits. -/
def fracDigits : Nat → Nat → Nat → String
  | 0, _, _ => ""
  | fuel + 1, rem, d =>
    if rem = 0 then ""
    else toString (rem * 10 / d) ++ fracDigits fuel (rem * 10 % d) d

/-- Rendering of a float value as Python's `str` prints it: optional sign,
integer part, a dot, then the fractional digits (a single `"0"` when the
value is integral, as in `9.0`). -/
def formatFloat (q : ℚ) : String :=
  let sgn := if q.num < 0 then "-" else ""
  let n : Nat := q.num.natAbs
  let d : Nat := q.den
  sgn ++ toString (n / d) ++ "." ++
    (if n % d = 0 then "0" else fracDigits 30 (n % d) d)

/-- How the script's f-strings render each value: `str` of an int, `str`
of a float, `str` of a bool (`True` / `False`). -/
def formatVal : PyVal → String
  | .int n => toString n
  | .float q => formatFloat q
  | .bool b => if b then "True" else "False"

/-- The observable events of a run of `main`: a call into the bindings
module (function name and argument list) or a line printed to stdout. -/
inductive Event where
  | call (fn : String) (args : List PyVal)
  | out (line : String)
deriving DecidableEq

/-- The lines printed to stdout, extracted from an event trace in order. -/
def outLines (tr : List Event) : List String :=
  tr.filterMap fun e =>
    match e with
    | .out s => some s
    | .call _ _ => none

/-- The binding calls made during a run, extracted from an event trace in
order. -/
def callsOf (tr : List Event) : List (String × List PyVal) :=
  tr.filterMap fun e =>
    match e with
    | .call f a => some (f, a)
    | .out _ => none

/-- The four functions the script imports from `bindings.math`
(`add(a, b)`, `multiply(a, b)`, `square_root(a)`, `is_even(n)`).  Each
call either returns a Python value or raises, modelled by `Except`.  The
argument types are the ones the script's call sites supply. -/
structure Bindings where
  add : Int → Int → Except String PyVal
  multiply : ℚ → ℚ → Except String PyVal
  square_root : ℚ → Except String PyVal
  is_even : Int → Except String PyVal

/-- The local variable `number = 42` of `main`. -/
def number : Int := 42

/-- The line printed for the `add` result: `f"5 + 3 = {result}"`. -/
def line1 (r : PyVal) : String := "5 + 3 = " ++ formatVal r

/-- The line printed for the `multiply` result: `f"4.5 * 2.0 = {result}"`. -/
def line2 (r : PyVal) : String := "4.5 * 2.0 = " ++ formatVal r

/-- The line printed for the `square_root` result:
`f"sqrt(16.0) = {result}"`. -/
def line3 (r : PyVal) : String := "sqrt(16.0) = " ++ formatVal r

/-- The line printed for the `is_even` result:
`f"Is {number} even? {result}"`. -/
def line4 (r : PyVal) : String :=
  "Is " ++ toString number ++ " even? " ++ formatVal r

/-- Translation of `main`: the four binding calls with the script's
literal arguments, each immediately followed by a `print` of its result.
A raised exception aborts the remaining statements and propagates as the
`Except.error` exit status; the returned trace records the calls made and
the lines printed, in program order. -/
def runMain (b : Bindings) : List Event × Except String Unit :=
  let c1 := Event.call "add" [.int 5, .int 3]
  match b.add 5 3 with
  | .error e => ([c1], .error e)
  | .ok r1 =>
    let c2 := Event.call "multiply" [.float 4.5, .float 2.0]
    match b.multiply 4.5 2.0 with
    | .error e => ([c1, .out (line1 r1), c2], .error e)
    | .ok r2 =>
      let c3 := Event.call "square_root" [.float 16.0]
      match b.square_root 16.0 with
      | .error e => ([c1, .out (line1 r1), c2, .out (line2 r2), c3], .error e)
      | .ok r3 =>
        let c4 := Event.call "is_even" [.int number]
        match b.is_even number with
        | .error e =>
          ([c1, .out (line1 r1), c2, .out (line2 r2), c3, .out (line3 r3), c4],
           .error e)
        | .ok r4 =>
          ([c1, .out (line1 r1), c2, .out (line2 r2), c3, .out (line3 r3), c4,
            .out (line4 r4)],
           .ok ())

/-- The interpreter state the script touches: the module search path
`sys.path` and the lines accumulated on stdout. -/
structure PyState where
  sysPath : List String
  stdout : List String
deriving DecidableEq

/-- Translation of the module-level statements of `example.py`:
`sys.path.append(<repo root>)` (`dir` is the directory the script
computes from `__file__`), then `from bindings.math import ...` whose
outcome is `resolve` (a failed import propagates as a startup error and
`main` never runs), then the `main()` call under `__name__ ==
"__main__"`.  Returns the final interpreter state and the exit status. -/
def runScript (dir : String) (resolve : Except String Bindings)
    (s : PyState) : PyState × Except String Unit :=
  let s1 : PyState := { s with sysPath := s.sysPath ++ [dir] }
  match resolve with
  | .error e => (s1, .error e)
  | .ok b =>
    let (tr, r) := runMain b
    ({ s1 with stdout := s1.stdout ++ outLines tr }, r)

/-- The stdout lines of a run of `main`, as a function of the process
argument vector and environment.  The script reads neither `sys.argv` nor
`os.environ`, so the embedding takes them as parameters and, like the
source, never consults them. -/
def mainStdout (argv : List String) (env : List (String × String))
    (b : Bindings) : List String :=
  outLines (runMain b).1

/-- Modelled from the spec: exact integer square root (the largest `k`
with `k * k ≤ n`), used to model `square_root` on the perfect squares the
script supplies. -/
def isqrt (n : Nat) : Nat :=
  ((List.range (n + 1)).filter fun k => k * k ≤ n).length - 1

/-- Modelled from the spec: exact square root of a rational whose
numerator and denominator are perfect squares (the script's only use is
`square_root(16.0) = 4.0`). -/
def ratSqrt (q : ℚ) : ℚ :=
  mkRat (isqrt q.num.toNat) (isqrt q.den)

/-- Modelled from the spec: the external module `bindings.math` is not
part of the repository source; per the spec's external-interface section
it provides `add(a, b) -> number`, `multiply(a, b) -> number`,
`square_root(a) -> number` and `is_even(n) -> boolean` with their
standard arithmetic meaning (`add` on the script's int arguments returns
an int, the float operations return floats, `is_even` returns a bool). -/
def specBindings : Bindings where
  add a b := .ok (.int (a + b))
  multiply a b := .ok (.float (a * b))
  square_root a := .ok (.float (ratSqrt a))
  is_even n := .ok (.bool (n % 2 == 0))

/-- A bindings module whose `multiply` raises; used to exhibit error
propagation. -/
def multiplyFails : Bindings :=
  { specBindings with multiply := fun _ _ => .error "native call failed" }

/-- A bindings module whose `square_root` raises; used to exhibit partial
output on failure. -/
def sqrtFails : Bindings :=
  { specBindings with square_root := fun _ => .error "math domain error" }

/-- C1: on every run of `main` in which all four binding calls return
normally, `main` writes exactly four lines to stdout (and nothing else)
and exits successfully. -/
theorem main_success_four_lines (b : Bindings)
    (h1 : ∃ r, b.add 5 3 = .ok r)
    (h2 : ∃ r, b.multiply 4.5 2.0 = .ok r)
    (h3 : ∃ r, b.square_root 16.0 = .ok r)
    (h4 : ∃ r, b.is_even number = .ok r) :
    (outLines (runMain b).1).length = 4 ∧ (runMain b).2 = .ok () := by
  obtain ⟨r1, h1⟩ := h1
  obtain ⟨r2, h2⟩ := h2
  obtain ⟨r3, h3⟩ := h3
  obtain ⟨r4, h4⟩ := h4
  simp [runMain, outLines, h1, h2, h3, h4]

/-- Witness for C1 at the spec-modelled bindings. -/
theorem main_success_four_lines_w :
    ((∃ r, specBindings.add 5 3 = .ok r) ∧
      (∃ r, specBindings.multiply 4.5 2.0 = .ok r) ∧
      (∃ r, specBindings.square_root 16.0 = .ok r) ∧
      (∃ r, specBindings.is_even number = .ok r)) ∧
    (outLines (runMain specBindings).1).length = 4 ∧
      (runMain specBindings).2 = .ok () :=
  ⟨⟨⟨_, rfl⟩, ⟨_, rfl⟩, ⟨_, rfl⟩, ⟨_, rfl⟩⟩,
    main_success_four_lines specBindings ⟨_, rfl⟩ ⟨_, rfl⟩ ⟨_, rfl⟩ ⟨_, rfl⟩⟩

/-- C2: for the literal inputs (5, 3) passed to `add`, the addition
output line printed by `main` is exactly `"5 + 3 = 8"`. -/
theorem addition_output_line :
    (outLines (runMain specBindings).1).get? 0 = some "5 + 3 = 8" := by
  with_unfolding_all decide

/-- C3: for the literal inputs (4.5, 2.0) passed to `multiply`, the
multiplication output line printed by `main` is exactly
`"4.5 * 2.0 = 9.0"`. -/
theorem multiplication_output_line :
    (outLines (runMain specBindings).1).get? 1 = some "4.5 * 2.0 = 9.0" := by
  with_unfolding_all decide

/-- C4: for the literal input 16.0 passed to `square_root`, the
square-root output line printed by `main` is exactly
`"sqrt(16.0) = 4.0"`. -/
theorem square_root_output_line :
    (outLines (runMain specBindings).1).get? 2 = some "sqrt(16.0) = 4.0" := by
  with_unfolding_all decide

/-- C5: for the literal input 42 passed to `is_even`, the even-check
output line printed by `main` is exactly `"Is 42 even? True"`. -/
theorem even_check_output_line :
    (outLines (runMain specBindings).1).get? 3 = some "Is 42 even? True" := by
  with_unfolding_all decide

/-- C6: on a fully successful run, the trace of `main` is exactly the
four binding calls `add(5, 3)`, `multiply(4.5, 2.0)`,
`square_root(16.0)`, `is_even(42)`, in that order, each immediately
followed by the print of its result. -/
theorem main_call_print_trace (b : Bindings) (r1 r2 r3 r4 : PyVal)
    (h1 : b.add 5 3 = .ok r1)
    (h2 : b.multiply 4.5 2.0 = .ok r2)
    (h3 : b.square_root 16.0 = .ok r3)
    (h4 : b.is_even number = .ok r4) :
    (runMain b).1 =
      [.call "add" [.int 5, .int 3], .out (line1 r1),
        .call "multiply" [.float 4.5, .float 2.0], .out (line2 r2),
        .call "square_root" [.float 16.0], .out (line3 r3),
        .call "is_even" [.int number], .out (line4 r4)] := by
  simp [runMain, h1, h2, h3, h4]

/-- Witness for C6 at the spec-modelled bindings. -/
theorem main_call_print_trace_w :
    specBindings.add 5 3 = .ok (.int 8) ∧
    specBindings.multiply 4.5 2.0 = .ok (.float 9.0) ∧
    specBindings.square_root 16.0 = .ok (.float 4.0) ∧
    specBindings.is_even number = .ok (.bool true) ∧
    (runMain specBindings).1 =
      [.call "add" [.int 5, .int 3], .out (line1 (.int 8)),
        .call "multiply" [.float 4.5, .float 2.0], .out (line2 (.float 9.0)),
        .call "square_root" [.float 16.0], .out (line3 (.float 4.0)),
        .call "is_even" [.int number], .out (line4 (.bool true))] :=
  ⟨rfl, by with_unfolding_all rfl, by with_unfolding_all rfl, rfl,
    main_call_print_trace specBindings (.int 8) (.float 9.0) (.float 4.0)
      (.bool true) rfl (by with_unfolding_all rfl)
      (by with_unfolding_all rfl) rfl⟩

/-- C7: no exception from resolving the bindings module or from any of
the four binding calls is caught anywhere in the script; each such
failure propagates unchanged as the script's exit status. -/
theorem failures_propagate_uncaught (dir : String) (s : PyState)
    (b : Bindings) (e : String) :
    ((runScript dir (.error e) s).2 = .error e) ∧
    (b.add 5 3 = .error e → (runScript dir (.ok b) s).2 = .error e) ∧
    (∀ r1, b.add 5 3 = .ok r1 → b.multiply 4.5 2.0 = .error e →
      (runScript dir (.ok b) s).2 = .error e) ∧
    (∀ r1 r2, b.add 5 3 = .ok r1 → b.multiply 4.5 2.0 = .ok r2 →
      b.square_root 16.0 = .error e →
      (runScript dir (.ok b) s).2 = .error e) ∧
    (∀ r1 r2 r3, b.add 5 3 = .ok r1 → b.multiply 4.5 2.0 = .ok r2 →
      b.square_root 16.0 = .ok r3 → b.is_even number = .error e →
      (runScript dir (.ok b) s).2 = .error e) := by
  refine ⟨rfl, fun h1 => ?_, fun r1 h1 h2 => ?_, fun r1 r2 h1 h2 h3 => ?_,
    fun r1 r2 r3 h1 h2 h3 h4 => ?_⟩ <;>
  simp [runScript, runMain, *]

/-- Witness for C7: a bindings module whose `multiply` raises makes the
script exit with exactly that error. -/
theorem failures_propagate_uncaught_w :
    multiplyFails.add 5 3 = .ok (.int 8) ∧
    multiplyFails.multiply 4.5 2.0 = .error "native call failed" ∧
    (runScript "cp2p" (.ok multiplyFails) ⟨[], []⟩).2 =
      .error "native call failed" :=
  ⟨rfl, rfl,
    (failures_propagate_uncaught "cp2p" ⟨[], []⟩ multiplyFails
      "native call failed").2.2.1 (.int 8) rfl rfl⟩

/-- C8 counterexample: running the script does mutate interpreter state
outside stdout — `sys.path` differs before and after the run. -/
theorem sys_path_differs_after_run :
    (runScript "cp2p" (.ok specBindings) ⟨[], []⟩).1.sysPath ≠
      (PyState.mk [] []).sysPath := by
  with_unfolding_all decide

/-- C8 amended: beyond appending its lines to stdout, the script's only
other state change is appending the directory computed from `__file__`
to `sys.path`; no further interpreter state differs before and after
execution. -/
theorem script_state_effects (dir : String) (b : Bindings) (s : PyState) :
    (runScript dir (.ok b) s).1 =
      ⟨s.sysPath ++ [dir], s.stdout ++ outLines (runMain b).1⟩ := rfl

/-- C9: the stdout of a run of `main` is independent of the process
argument vector and environment: two runs with the same bindings but
different arguments and environments print identical lines. -/
theorem stdout_independent_of_argv_env (a1 a2 : List String)
    (e1 e2 : List (String × String)) (b : Bindings) :
    mainStdout a1 e1 b = mainStdout a2 e2 b := rfl

/-- C10: if the k-th binding call raises (k = 1..4 in the order `add`,
`multiply`, `square_root`, `is_even`), stdout holds exactly the output
lines of the k-1 preceding calls: every earlier line was already printed
and no line for the failing or any later call appears. -/
theorem partial_stdout_on_failure (b : Bindings) (e : String) :
    (b.add 5 3 = .error e → outLines (runMain b).1 = []) ∧
    (∀ r1, b.add 5 3 = .ok r1 → b.multiply 4.5 2.0 = .error e →
      outLines (runMain b).1 = [line1 r1]) ∧
    (∀ r1 r2, b.add 5 3 = .ok r1 → b.multiply 4.5 2.0 = .ok r2 →
      b.square_root 16.0 = .error e →
      outLines (runMain b).1 = [line1 r1, line2 r2]) ∧
    (∀ r1 r2 r3, b.add 5 3 = .ok r1 → b.multiply 4.5 2.0 = .ok r2 →
      b.square_root 16.0 = .ok r3 → b.is_even number = .error e →
      outLines (runMain b).1 = [line1 r1, line2 r2, line3 r3]) := by
  refine ⟨fun h1 => ?_, fun r1 h1 h2 => ?_, fun r1 r2 h1 h2 h3 => ?_,
    fun r1 r2 r3 h1 h2 h3 h4 => ?_⟩ <;>
  simp [runMain, outLines, *]

/-- Witness for C10: with a `square_root` that raises, exactly the first
two lines are printed. -/
theorem partial_stdout_on_failure_w :
    sqrtFails.add 5 3 = .ok (.int 8) ∧
    sqrtFails.multiply 4.5 2.0 = .ok (.float 9.0) ∧
    sqrtFails.square_root 16.0 = .error "math domain error" ∧
    outLines (runMain sqrtFails).1 = [line1 (.int 8), line2 (.float 9.0)] :=
  ⟨rfl, by with_unfolding_all rfl, rfl,
    (partial_stdout_on_failure sqrtFails "math domain error").2.2.1
      (.int 8) (.float 9.0) rfl (by with_unfolding_all rfl) rfl⟩
